import Mathlib

/-
Verification of the runval combinator core (src/schema.ts).

The embedding models JavaScript runtime values as the inductive type
Value, the typeof operator as typeofV, and a schema as a structure
holding its validate function, exactly as in the source where a schema
is a record with a single validate field. Each combinator of the source
(makeSchemaFromPrimitive, number, string, boolean, tuple, array, object,
optional, or, and) is translated function by function. Error objects are
modelled by their message strings, which is the only observable the
library reads from them.
-/

namespace Runval

/-- A JavaScript runtime value, restricted to the data universe the
library manipulates: undefined, null, booleans, numbers, strings,
arrays and plain objects. An object is a list of own properties in
creation order; duplicate keys do not arise from object literals. -/
inductive Value where
  | vundefined : Value
  | vnull : Value
  | vbool : Bool → Value
  | vnum : Int → Value
  | vstr : String → Value
  | varr : List Value → Value
  | vobj : List (String × Value) → Value

/-- The JavaScript typeof operator on the modelled universe. Note that
typeof null, typeof of an array and typeof of a plain object are all
the string "object". -/
def typeofV : Value → String
  | .vundefined => "undefined"
  | .vnull => "object"
  | .vbool _ => "boolean"
  | .vnum _ => "number"
  | .vstr _ => "string"
  | .varr _ => "object"
  | .vobj _ => "object"

/-- Mirrors the test obj === null of the source. -/
def isNullV : Value → Bool
  | .vnull => true
  | _ => false

/-- Mirrors the test obj === undefined of the source. -/
def isUndefinedV : Value → Bool
  | .vundefined => true
  | _ => false

/-- ValidationResult of schema.ts: either Success carrying the item, or
Failure carrying an error, modelled by its message string. -/
inductive ValidationResult where
  | success : Value → ValidationResult
  | failure : String → ValidationResult

/-- The boolean success tag of a ValidationResult, as read by the
source through result.success. -/
def ValidationResult.succeeded : ValidationResult → Bool
  | .success _ => true
  | .failure _ => false

/-- The success constructor of schema.ts: wraps the value unchanged. -/
def success (obj : Value) : ValidationResult := ValidationResult.success obj

/-- The failure constructor of schema.ts: wraps the error unchanged. -/
def failure (msg : String) : ValidationResult := ValidationResult.failure msg

/-- Schema of schema.ts: a record whose single capability is validate. -/
structure Schema where
  validate : Value → ValidationResult

/-- makeSchemaFromPrimitive of schema.ts: accepts exactly the values
whose typeof equals typeName, and otherwise fails with the fixed
primitive-mismatch message. -/
def makeSchemaFromPrimitive (typeName : String) : Schema where
  validate obj :=
    if typeofV obj == typeName then success obj
    else failure ("Invalid primitive. Expected " ++ typeName ++ ", but got " ++ typeofV obj)

/-- number of schema.ts, built from typeof 0. -/
def number : Unit → Schema := fun _ => makeSchemaFromPrimitive (typeofV (.vnum 0))

/-- string of schema.ts, built from typeof the empty string. -/
def string : Unit → Schema := fun _ => makeSchemaFromPrimitive (typeofV (.vstr ""))

/-- boolean of schema.ts, built from typeof false. -/
def boolean : Unit → Schema := fun _ => makeSchemaFromPrimitive (typeofV (.vbool false))

/-- The index loop of tuple in schema.ts. After the length check has
passed, the source iterates i over 0 .. schemas.length - 1 validating
schemas at i against obj at i; with equal lengths this is the walk of
the zipped list. On the first child failure the loop returns a failure
built from the same error; if no child fails it returns success of the
original input obj. -/
def tupleLoop (obj : Value) : List (Schema × Value) → ValidationResult
  | [] => success obj
  | (s, v) :: rest =>
    match s.validate v with
    | .failure msg => failure msg
    | .success _ => tupleLoop obj rest

/-- tuple of schema.ts: rejects non-arrays, then sequences of the wrong
length, then runs the index loop. -/
def tuple (schemas : List Schema) : Schema where
  validate obj :=
    match obj with
    | .varr elems =>
      if schemas.length != elems.length then
        failure ("Tuple does not have expected length " ++ toString schemas.length
          ++ ", got: \x27" ++ toString elems.length ++ "\x27")
      else tupleLoop (.varr elems) (schemas.zip elems)
    | _ => failure ("Expected a tuple, got: \x27" ++ typeofV obj ++ "\x27")

/-- The element loop of array in schema.ts: validates each element in
order against the element schema, returning on the first failure a
failure built from the same error, and otherwise success of the
original input obj. -/
def arrayLoop (schema : Schema) (obj : Value) : List Value → ValidationResult
  | [] => success obj
  | v :: rest =>
    match schema.validate v with
    | .failure msg => failure msg
    | .success _ => arrayLoop schema obj rest

/-- array of schema.ts: rejects non-arrays, then runs the element loop. -/
def array (schema : Schema) : Schema where
  validate obj :=
    match obj with
    | .varr elems => arrayLoop schema (.varr elems) elems
    | _ => failure ("Expected an array, got: \x27" ++ typeofV obj ++ "\x27")

/-- The numeric value of a decimal digit character, or none. -/
def charDigit (c : Char) : Option Nat :=
  if c.isDigit then some (c.toNat - 48) else none

/-- Accumulating decimal parse of a character list; none on the first
non-digit character. -/
def parseNatAux : List Char → Nat → Option Nat
  | [], acc => some acc
  | c :: cs, acc =>
    match charDigit c with
    | some d => parseNatAux cs (acc * 10 + d)
    | none => none

/-- Decimal parse of a string: some n when every character is a digit
and the string is nonempty, none otherwise. -/
def strToNat? (s : String) : Option Nat :=
  match s.data with
  | [] => none
  | cs => parseNatAux cs 0

/-- JavaScript property read o[key] as used by object in schema.ts on
inputs that passed its kind check, so on plain objects and on arrays.
On a plain object it is the own property of that name, or undefined
when absent. On an array, the key length reads the length, a canonical
array-index key (digits only, no leading zero) reads the element at
that index when it exists, and every other key reads undefined. -/
def getField (obj : Value) (key : String) : Value :=
  match obj with
  | .vobj fields =>
    match fields.lookup key with
    | some v => v
    | none => .vundefined
  | .varr elems =>
    if key == "length" then .vnum (Int.ofNat elems.length)
    else
      match strToNat? key with
      | some i => if toString i == key then elems.getD i .vundefined else .vundefined
      | none => .vundefined
  | _ => .vundefined

/-- Whether a property key is an ECMAScript array index: the canonical
decimal form of an integer i with 0 <= i < 2 ^ 32 - 1. Object.entries
lists such keys first, in ascending numeric order. -/
def isArrayIndexStr (s : String) : Bool :=
  match strToNat? s with
  | some n => toString n == s && n < 4294967295
  | none => false

/-- The numeric value of an array-index key; used only on entries whose
key satisfies isArrayIndexStr. -/
def keyIndex (e : String × Schema) : Nat := (strToNat? e.1).getD 0

/-- Insertion step of the ascending sort of array-index entries. -/
def insertAsc (x : String × Schema) : List (String × Schema) → List (String × Schema)
  | [] => [x]
  | y :: ys => if keyIndex x ≤ keyIndex y then x :: y :: ys else y :: insertAsc x ys

/-- Ascending insertion sort of array-index entries by numeric key. -/
def sortAsc : List (String × Schema) → List (String × Schema)
  | [] => []
  | x :: xs => insertAsc x (sortAsc xs)

/-- Object.entries of a fields record, in ECMAScript own-property
enumeration order: entries whose key is an array index first, in
ascending numeric order, then the remaining entries in creation
(declaration) order. -/
def jsEntries (fields : List (String × Schema)) : List (String × Schema) :=
  sortAsc (fields.filter (fun e => isArrayIndexStr e.1))
    ++ fields.filter (fun e => !isArrayIndexStr e.1)

/-- The message built by object in schema.ts when the child schema of a
field fails. -/
def wrapFieldMsg (key msg : String) : String :=
  "Got invalid type for field \x27" ++ key ++ "\x27: \x27" ++ msg ++ "\x27"

/-- The field loop of object in schema.ts: for each entry, in
Object.entries order, reads the property of that name off the input
and validates it with the child schema; on the first child failure
returns the field-wrapped failure, and otherwise success of the
original input. -/
def validateFields (obj : Value) : List (String × Schema) → ValidationResult
  | [] => success obj
  | (key, s) :: rest =>
    match s.validate (getField obj key) with
    | .failure msg => failure (wrapFieldMsg key msg)
    | .success _ => validateFields obj rest

/-- object of schema.ts: rejects inputs whose typeof is not the string
object, and null, with the kind-mismatch message; otherwise runs the
field loop over Object.entries of the fields record. -/
def object (fields : List (String × Schema)) : Schema where
  validate obj :=
    if typeofV obj != "object" || isNullV obj then
      failure ("Expected an object, got: \x27" ++ typeofV obj ++ "\x27")
    else validateFields obj (jsEntries fields)

/-- optional of schema.ts: undefined and null are accepted outright
with the input itself as payload; any other input is delegated to the
inner schema, whose result is returned unchanged. -/
def optional (schema : Schema) : Schema where
  validate obj :=
    if isUndefinedV obj || isNullV obj then success obj
    else schema.validate obj

/-- or of schema.ts: left first, then right, succeeding with the
original input when either side succeeds, and composing both messages
when both fail. -/
def or (left right : Schema) : Schema where
  validate obj :=
    match left.validate obj with
    | .success _ => success obj
    | .failure lm =>
      match right.validate obj with
      | .success _ => success obj
      | .failure rm => failure ("Failed or case. Left: " ++ lm ++ ", Right: " ++ rm)

/-- and of schema.ts: runs both sides, collects the messages of the
failing sides in left-then-right order, and fails with their join when
the collection is nonempty; otherwise succeeds with the original
input. -/
def and (left right : Schema) : Schema where
  validate obj :=
    let leftRes := left.validate obj
    let rightRes := right.validate obj
    let errors :=
      (match leftRes with | .failure m => [m] | .success _ => [])
        ++ (match rightRes with | .failure m => [m] | .success _ => [])
    if errors.length != 0 then
      failure ("Failed and case. " ++ String.intercalate ", " errors)
    else success obj

/-- If every element of the list passes the element schema, the array
loop returns success of the original input. -/
theorem arrayLoop_all_success (s : Schema) (obj : Value) (l : List Value)
    (h : ∀ x ∈ l, (s.validate x).succeeded = true) :
    arrayLoop s obj l = ValidationResult.success obj := by
  induction l with
  | nil => rfl
  | cons v rest ih =>
    have hv := h v (List.mem_cons_self v rest)
    cases hres : s.validate v with
    | success w =>
      simpa [arrayLoop, hres] using ih (fun x hx => h x (List.mem_cons_of_mem v hx))
    | failure m => simp [hres, ValidationResult.succeeded] at hv

/-- If every element before position i passes and the element at i
fails with some message, the array loop returns a failure carrying
exactly that message. -/
theorem arrayLoop_first_failure (s : Schema) (obj v : Value) (pre rest : List Value)
    (msg : String)
    (hpre : ∀ x ∈ pre, (s.validate x).succeeded = true)
    (hv : s.validate v = ValidationResult.failure msg) :
    arrayLoop s obj (pre ++ v :: rest) = ValidationResult.failure msg := by
  induction pre with
  | nil => simp [arrayLoop, hv, failure]
  | cons p ps ih =>
    have hp := hpre p (List.mem_cons_self p ps)
    cases hres : s.validate p with
    | success w =>
      simpa [arrayLoop, hres] using ih (fun x hx => hpre x (List.mem_cons_of_mem p hx))
    | failure m => simp [hres, ValidationResult.succeeded] at hp

/-- If every position of the zipped list passes its schema, the tuple
loop returns success of the original input. -/
theorem tupleLoop_all_success (obj : Value) (pairs : List (Schema × Value))
    (h : ∀ p ∈ pairs, ((p.1).validate p.2).succeeded = true) :
    tupleLoop obj pairs = ValidationResult.success obj := by
  induction pairs with
  | nil => rfl
  | cons p rest ih =>
    obtain ⟨s, v⟩ := p
    have hv := h (s, v) (List.mem_cons_self (s, v) rest)
    cases hres : s.validate v with
    | success w =>
      simpa [tupleLoop, hres] using ih (fun q hq => h q (List.mem_cons_of_mem (s, v) hq))
    | failure m => simp [hres, ValidationResult.succeeded] at hv

/-- If every earlier position passes and position i fails with some
message, the tuple loop returns a failure carrying exactly that
message. -/
theorem tupleLoop_first_failure (obj : Value) (pre rest : List (Schema × Value))
    (s : Schema) (v : Value) (msg : String)
    (hpre : ∀ p ∈ pre, ((p.1).validate p.2).succeeded = true)
    (hv : s.validate v = ValidationResult.failure msg) :
    tupleLoop obj (pre ++ (s, v) :: rest) = ValidationResult.failure msg := by
  induction pre with
  | nil => simp [tupleLoop, hv, failure]
  | cons p ps ih =>
    obtain ⟨ps1, pv⟩ := p
    have hp := hpre (ps1, pv) (List.mem_cons_self (ps1, pv) ps)
    cases hres : ps1.validate pv with
    | success w =>
      simpa [tupleLoop, hres] using ih (fun q hq => hpre q (List.mem_cons_of_mem (ps1, pv) hq))
    | failure m => simp [hres, ValidationResult.succeeded] at hp

/-- If every declared entry validates the property read off the input,
the field loop returns success of the original input. -/
theorem validateFields_all_success (obj : Value) (l : List (String × Schema))
    (h : ∀ e ∈ l, ((e.2).validate (getField obj e.1)).succeeded = true) :
    validateFields obj l = ValidationResult.success obj := by
  induction l with
  | nil => rfl
  | cons e rest ih =>
    obtain ⟨k, s⟩ := e
    have hv := h (k, s) (List.mem_cons_self (k, s) rest)
    cases hres : s.validate (getField obj k) with
    | success w =>
      simpa [validateFields, hres] using ih (fun q hq => h q (List.mem_cons_of_mem (k, s) hq))
    | failure m => simp [hres, ValidationResult.succeeded] at hv

/-- If every earlier entry passes and the entry with key k fails with
some message, the field loop returns the failure wrapping that message
with the field name k. -/
theorem validateFields_first_failure (obj : Value) (pre rest : List (String × Schema))
    (k : String) (s : Schema) (msg : String)
    (hpre : ∀ e ∈ pre, ((e.2).validate (getField obj e.1)).succeeded = true)
    (hv : s.validate (getField obj k) = ValidationResult.failure msg) :
    validateFields obj (pre ++ (k, s) :: rest) = ValidationResult.failure (wrapFieldMsg k msg) := by
  induction pre with
  | nil => simp [validateFields, hv, failure]
  | cons e es ih =>
    obtain ⟨ek, es1⟩ := e
    have he := hpre (ek, es1) (List.mem_cons_self (ek, es1) es)
    cases hres : es1.validate (getField obj ek) with
    | success w =>
      simpa [validateFields, hres] using ih (fun q hq => hpre q (List.mem_cons_of_mem (ek, es1) hq))
    | failure m => simp [hres, ValidationResult.succeeded] at he

/-- Every failure produced by the field loop is a field-wrapped
message. -/
theorem validateFields_failure_wrap (obj : Value) (l : List (String × Schema)) (msg : String)
    (h : validateFields obj l = ValidationResult.failure msg) :
    ∃ k m, msg = wrapFieldMsg k m := by
  induction l with
  | nil => simp [validateFields, success] at h
  | cons e es ih =>
    obtain ⟨k, s⟩ := e
    cases hres : s.validate (getField obj k) with
    | success w =>
      rw [show validateFields obj ((k, s) :: es)
          = validateFields obj es by simp [validateFields, hres]] at h
      exact ih h
    | failure m =>
      rw [show validateFields obj ((k, s) :: es)
          = ValidationResult.failure (wrapFieldMsg k m) by simp [validateFields, hres, failure]] at h
      exact ⟨k, m, (ValidationResult.failure.inj h).symm⟩

/-- Inserting an entry into a list yields a permutation of consing it. -/
theorem insertAsc_perm (x : String × Schema) (l : List (String × Schema)) :
    List.Perm (insertAsc x l) (x :: l) := by
  induction l with
  | nil => exact List.Perm.refl _
  | cons y ys ih =>
    by_cases hc : keyIndex x ≤ keyIndex y
    · rw [insertAsc, if_pos hc]
    · rw [insertAsc, if_neg hc]
      exact ((ih.cons y).trans (List.Perm.swap x y ys))

/-- The ascending sort permutes its input. -/
theorem sortAsc_perm (l : List (String × Schema)) : List.Perm (sortAsc l) l := by
  induction l with
  | nil => exact List.Perm.refl _
  | cons x xs ih => exact (insertAsc_perm x (sortAsc xs)).trans (ih.cons x)

/-- Every entry enumerated by jsEntries is an entry of the fields
record. -/
theorem mem_of_mem_jsEntries (e : String × Schema) (fields : List (String × Schema))
    (h : e ∈ jsEntries fields) : e ∈ fields := by
  rw [jsEntries, List.mem_append] at h
  rcases h with h | h
  · exact List.mem_of_mem_filter ((sortAsc_perm _).mem_iff.mp h)
  · exact List.mem_of_mem_filter h

/-- A value other than null has isNullV false. -/
theorem isNullV_eq_false (v : Value) (h : v ≠ Value.vnull) : isNullV v = false := by
  cases v
  case vnull => exact absurd rfl h
  all_goals rfl

/-- On an input whose typeof is the string object and which is not
null, the kind check of object passes and validation proceeds to the
field loop over Object.entries of the fields record. -/
theorem object_validate_pass (fields : List (String × Schema)) (v : Value)
    (h1 : typeofV v = "object") (h2 : v ≠ Value.vnull) :
    (object fields).validate v = validateFields v (jsEntries fields) := by
  have hn := isNullV_eq_false v h2
  simp [object, h1, hn]

/-- C1: a primitive schema (number, string, boolean) validates a value
successfully, with the value itself as payload, exactly when the
runtime kind of the value matches the expected primitive kind; on any
mismatch it fails with the message Invalid primitive. Expected
expectedKind, but got actualKind, with the expected kind first, then
the actual kind, comma-separated, after the fixed prefix. -/
theorem C1_primitive_kind_and_message :
    (∀ n : Int, (number ()).validate (.vnum n) = ValidationResult.success (.vnum n))
    ∧ (∀ v : Value, (∀ n : Int, v ≠ .vnum n) →
        (number ()).validate v
          = ValidationResult.failure ("Invalid primitive. Expected number, but got " ++ typeofV v))
    ∧ (∀ s : String, (string ()).validate (.vstr s) = ValidationResult.success (.vstr s))
    ∧ (∀ v : Value, (∀ s : String, v ≠ .vstr s) →
        (string ()).validate v
          = ValidationResult.failure ("Invalid primitive. Expected string, but got " ++ typeofV v))
    ∧ (∀ b : Bool, (boolean ()).validate (.vbool b) = ValidationResult.success (.vbool b))
    ∧ (∀ v : Value, (∀ b : Bool, v ≠ .vbool b) →
        (boolean ()).validate v
          = ValidationResult.failure ("Invalid primitive. Expected boolean, but got " ++ typeofV v)) := by
  refine ⟨fun _ => rfl, fun v h => ?_, fun _ => rfl, fun v h => ?_, fun _ => rfl, fun v h => ?_⟩
  all_goals cases v
  all_goals first
    | rfl
    | exact absurd rfl (h _)

/-- C1 witness: the number schema accepts 3 with payload 3, and each
primitive schema rejects a value of another kind with the exact
mismatch message. -/
theorem C1_primitive_kind_and_message_witness :
    (number ()).validate (.vnum 3) = ValidationResult.success (.vnum 3)
    ∧ (number ()).validate (.vstr "a")
        = ValidationResult.failure ("Invalid primitive. Expected number, but got " ++ typeofV (.vstr "a"))
    ∧ (string ()).validate (.vnum 1)
        = ValidationResult.failure ("Invalid primitive. Expected string, but got " ++ typeofV (.vnum 1))
    ∧ (boolean ()).validate (.vstr "x")
        = ValidationResult.failure ("Invalid primitive. Expected boolean, but got " ++ typeofV (.vstr "x")) :=
  ⟨C1_primitive_kind_and_message.1 3,
   C1_primitive_kind_and_message.2.1 (.vstr "a") (fun _ h => Value.noConfusion h),
   C1_primitive_kind_and_message.2.2.2.1 (.vnum 1) (fun _ h => Value.noConfusion h),
   C1_primitive_kind_and_message.2.2.2.2.2 (.vstr "x") (fun _ h => Value.noConfusion h)⟩

/-- C3: on every input that is not an object in the JavaScript sense,
null included, an object schema fails with the message that states the
expected kind object and the actual kind of the input as reported by
typeof. -/
theorem C3_object_rejects_non_objects (fields : List (String × Schema)) (v : Value)
    (h : typeofV v ≠ "object" ∨ v = Value.vnull) :
    (object fields).validate v
      = ValidationResult.failure ("Expected an object, got: \x27" ++ typeofV v ++ "\x27") := by
  rcases h with h | h
  · simp [object, h, failure]
  · subst h; rfl

/-- C3 witness: the empty object schema rejects null and the number 1
with the kind-mismatch message. -/
theorem C3_object_rejects_non_objects_witness :
    (object []).validate Value.vnull
      = ValidationResult.failure ("Expected an object, got: \x27" ++ typeofV Value.vnull ++ "\x27")
    ∧ (object []).validate (.vnum 1)
      = ValidationResult.failure ("Expected an object, got: \x27" ++ typeofV (.vnum 1) ++ "\x27") :=
  ⟨C3_object_rejects_non_objects [] Value.vnull (Or.inr rfl),
   C3_object_rejects_non_objects [] (.vnum 1) (Or.inl (by decide))⟩

/-- C4: when every declared field of an object schema validates the
corresponding property of the input, validation succeeds and the
payload is the original input value itself, so undeclared properties
of the input are preserved and never cause rejection. -/
theorem C4_object_success_payload_is_input (fields : List (String × Schema)) (v : Value)
    (h1 : typeofV v = "object") (h2 : v ≠ Value.vnull)
    (h : ∀ e ∈ fields, ((e.2).validate (getField v e.1)).succeeded = true) :
    (object fields).validate v = ValidationResult.success v := by
  rw [object_validate_pass fields v h1 h2]
  exact validateFields_all_success v (jsEntries fields)
    (fun e he => h e (mem_of_mem_jsEntries e fields he))

/-- C4 witness: a schema declaring only the field foo accepts an input
that also carries the undeclared field extra, and the payload is the
input itself, extra field included. -/
theorem C4_object_success_payload_is_input_witness :
    (object [("foo", number ())]).validate (.vobj [("foo", .vnum 1), ("extra", .vstr "z")])
      = ValidationResult.success (.vobj [("foo", .vnum 1), ("extra", .vstr "z")]) :=
  C4_object_success_payload_is_input [("foo", number ())]
    (.vobj [("foo", .vnum 1), ("extra", .vstr "z")]) rfl
    (fun h => Value.noConfusion h)
    (by
      intro e he
      rw [List.mem_singleton] at he
      subst he
      rfl)

/-- C9: optional accepts undefined and null unconditionally with the
input itself as payload, and on every other input returns exactly the
result of the inner schema, success or failure, unchanged. -/
theorem C9_optional_passthrough (schema : Schema) :
    (optional schema).validate Value.vundefined = ValidationResult.success Value.vundefined
    ∧ (optional schema).validate Value.vnull = ValidationResult.success Value.vnull
    ∧ (∀ v : Value, v ≠ Value.vundefined → v ≠ Value.vnull →
        (optional schema).validate v = schema.validate v) := by
  refine ⟨rfl, rfl, fun v h1 h2 => ?_⟩
  cases v
  case vundefined => exact absurd rfl h1
  case vnull => exact absurd rfl h2
  all_goals rfl

/-- C9 witness: optional string accepts undefined and null, accepts
the string x, and rejects the number 1 with exactly the message the
bare string schema produces. -/
theorem C9_optional_passthrough_witness :
    (optional (string ())).validate Value.vundefined = ValidationResult.success Value.vundefined
    ∧ (optional (string ())).validate Value.vnull = ValidationResult.success Value.vnull
    ∧ (optional (string ())).validate (.vstr "x") = (string ()).validate (.vstr "x")
    ∧ (optional (string ())).validate (.vnum 1) = (string ()).validate (.vnum 1) :=
  ⟨(C9_optional_passthrough (string ())).1,
   (C9_optional_passthrough (string ())).2.1,
   (C9_optional_passthrough (string ())).2.2 (.vstr "x")
     (fun h => Value.noConfusion h) (fun h => Value.noConfusion h),
   (C9_optional_passthrough (string ())).2.2 (.vnum 1)
     (fun h => Value.noConfusion h) (fun h => Value.noConfusion h)⟩

/-- C6: a tuple schema of arity N rejects every sequence whose length
differs from N with the message stating the expected length N and the
actual length, and rejects every non-sequence input with the message
naming the expected kind tuple. -/
theorem C6_tuple_arity_and_kind (schemas : List Schema) :
    (∀ elems : List Value, schemas.length ≠ elems.length →
      (tuple schemas).validate (.varr elems)
        = ValidationResult.failure ("Tuple does not have expected length "
            ++ toString schemas.length ++ ", got: \x27" ++ toString elems.length ++ "\x27"))
    ∧ (∀ v : Value, (∀ elems : List Value, v ≠ .varr elems) →
      (tuple schemas).validate v
        = ValidationResult.failure ("Expected a tuple, got: \x27" ++ typeofV v ++ "\x27")) := by
  constructor
  · intro elems h
    simp [tuple, h, failure]
  · intro v h
    cases v
    case varr elems => exact absurd rfl (h elems)
    all_goals rfl

/-- C6 witness: the pair schema of a number and a string rejects a
one-element sequence stating expected length 2 and actual length 1,
rejects a three-element sequence stating actual length 3, and rejects
the number 1 naming the expected kind tuple. -/
theorem C6_tuple_arity_and_kind_witness :
    (tuple [number (), string ()]).validate (.varr [.vnum 1])
      = ValidationResult.failure ("Tuple does not have expected length "
          ++ toString ([number (), string ()].length) ++ ", got: \x27" ++ toString ([Value.vnum 1].length) ++ "\x27")
    ∧ (tuple [number (), string ()]).validate (.varr [.vnum 1, .vstr "a", .vbool true])
      = ValidationResult.failure ("Tuple does not have expected length "
          ++ toString ([number (), string ()].length) ++ ", got: \x27"
          ++ toString ([Value.vnum 1, Value.vstr "a", Value.vbool true].length) ++ "\x27")
    ∧ (tuple [number (), string ()]).validate (.vnum 1)
      = ValidationResult.failure ("Expected a tuple, got: \x27" ++ typeofV (.vnum 1) ++ "\x27") :=
  ⟨(C6_tuple_arity_and_kind [number (), string ()]).1 [.vnum 1] (by decide),
   (C6_tuple_arity_and_kind [number (), string ()]).1 [.vnum 1, .vstr "a", .vbool true] (by decide),
   (C6_tuple_arity_and_kind [number (), string ()]).2 (.vnum 1) (fun _ h => Value.noConfusion h)⟩

/-- C7: or tries the left schema first and succeeds with the original
input as payload when either side succeeds; it fails exactly when both
sides fail, and then with the message Failed or case. Left:
leftMessage, Right: rightMessage, the left message first. -/
theorem C7_or_semantics (left right : Schema) (v : Value) :
    ((left.validate v).succeeded = true →
      (or left right).validate v = ValidationResult.success v)
    ∧ (∀ lm : String, left.validate v = ValidationResult.failure lm →
        (right.validate v).succeeded = true →
        (or left right).validate v = ValidationResult.success v)
    ∧ (∀ lm rm : String, left.validate v = ValidationResult.failure lm →
        right.validate v = ValidationResult.failure rm →
        (or left right).validate v
          = ValidationResult.failure ("Failed or case. Left: " ++ lm ++ ", Right: " ++ rm))
    ∧ (((or left right).validate v).succeeded = false
        ↔ (left.validate v).succeeded = false ∧ (right.validate v).succeeded = false) := by
  refine ⟨fun h => ?_, fun lm hl hr => ?_, fun lm rm hl hr => ?_, ?_⟩
  · cases hres : left.validate v with
    | success w => simp [or, hres, success]
    | failure m => simp [hres, ValidationResult.succeeded] at h
  · cases hres : right.validate v with
    | success w => simp [or, hl, hres, success]
    | failure m => simp [hres, ValidationResult.succeeded] at hr
  · simp [or, hl, hr, failure, String.append_assoc]
  · cases hl : left.validate v with
    | success w => simp [or, hl, success, ValidationResult.succeeded]
    | failure lm =>
      cases hr : right.validate v with
      | success w => simp [or, hl, hr, success, ValidationResult.succeeded]
      | failure rm => simp [or, hl, hr, failure, ValidationResult.succeeded]

/-- C7 witness: or of boolean and number accepts true and 1 with the
input as payload, and rejects the string x with the composed message
listing the boolean message first. -/
theorem C7_or_semantics_witness :
    (or (boolean ()) (number ())).validate (.vbool true) = ValidationResult.success (.vbool true)
    ∧ (or (boolean ()) (number ())).validate (.vnum 1) = ValidationResult.success (.vnum 1)
    ∧ (or (boolean ()) (number ())).validate (.vstr "x")
      = ValidationResult.failure ("Failed or case. Left: Invalid primitive. Expected boolean, but got string"
          ++ ", Right: Invalid primitive. Expected number, but got string") :=
  ⟨(C7_or_semantics (boolean ()) (number ()) (.vbool true)).1 rfl,
   (C7_or_semantics (boolean ()) (number ()) (.vnum 1)).2.1
     "Invalid primitive. Expected boolean, but got number" rfl rfl,
   (by
    have h := (C7_or_semantics (boolean ()) (number ()) (.vstr "x")).2.2.1
      "Invalid primitive. Expected boolean, but got string"
      "Invalid primitive. Expected number, but got string" rfl rfl
    simpa using h)⟩

/-- C8: and consults the outcome of both sides; it succeeds with the
original input as payload exactly when both succeed, and otherwise
fails with Failed and case. followed by the messages of the failing
sides only, in left-then-right order, joined by a comma and a space. -/
theorem C8_and_semantics (left right : Schema) (v : Value) :
    ((left.validate v).succeeded = true → (right.validate v).succeeded = true →
      (and left right).validate v = ValidationResult.success v)
    ∧ (∀ lm : String, left.validate v = ValidationResult.failure lm →
        (right.validate v).succeeded = true →
        (and left right).validate v = ValidationResult.failure ("Failed and case. " ++ lm))
    ∧ (∀ rm : String, (left.validate v).succeeded = true →
        right.validate v = ValidationResult.failure rm →
        (and left right).validate v = ValidationResult.failure ("Failed and case. " ++ rm))
    ∧ (∀ lm rm : String, left.validate v = ValidationResult.failure lm →
        right.validate v = ValidationResult.failure rm →
        (and left right).validate v
          = ValidationResult.failure ("Failed and case. " ++ lm ++ ", " ++ rm)) := by
  refine ⟨fun hl hr => ?_, fun lm hl hr => ?_, fun rm hl hr => ?_, fun lm rm hl hr => ?_⟩
  · cases hlres : left.validate v with
    | success w =>
      cases hrres : right.validate v with
      | success w2 => simp [and, hlres, hrres, success]
      | failure m => simp [hrres, ValidationResult.succeeded] at hr
    | failure m => simp [hlres, ValidationResult.succeeded] at hl
  · cases hrres : right.validate v with
    | success w => simp [and, hl, hrres, failure, String.intercalate, String.intercalate.go]
    | failure m => simp [hrres, ValidationResult.succeeded] at hr
  · cases hlres : left.validate v with
    | success w => simp [and, hlres, hr, failure, String.intercalate, String.intercalate.go]
    | failure m => simp [hlres, ValidationResult.succeeded] at hl
  · simp [and, hl, hr, failure, String.intercalate, String.intercalate.go, String.append_assoc]

/-- C8 witness: the intersection of two object schemas on an input
satisfying only the left side reports only the right violation; both
failing reports both messages left first; both passing succeeds with
the input as payload. -/
theorem C8_and_semantics_witness :
    (and (object [("foo", number ())]) (object [("bar", number ())])).validate
        (.vobj [("foo", .vnum 1)])
      = ValidationResult.failure ("Failed and case. "
          ++ wrapFieldMsg "bar" "Invalid primitive. Expected number, but got undefined")
    ∧ (and (boolean ()) (number ())).validate (.vstr "x")
      = ValidationResult.failure ("Failed and case. Invalid primitive. Expected boolean, but got string"
          ++ ", " ++ "Invalid primitive. Expected number, but got string")
    ∧ (and (boolean ()) (number ())).validate (.vbool true)
      = ValidationResult.failure ("Failed and case. Invalid primitive. Expected number, but got boolean")
    ∧ (and (number ()) (number ())).validate (.vnum 7) = ValidationResult.success (.vnum 7) :=
  ⟨(C8_and_semantics (object [("foo", number ())]) (object [("bar", number ())])
      (.vobj [("foo", .vnum 1)])).2.2.1
      (wrapFieldMsg "bar" "Invalid primitive. Expected number, but got undefined") rfl rfl,
   (by
    have h := (C8_and_semantics (boolean ()) (number ()) (.vstr "x")).2.2.2
      "Invalid primitive. Expected boolean, but got string"
      "Invalid primitive. Expected number, but got string" rfl rfl
    simpa using h),
   (C8_and_semantics (boolean ()) (number ()) (.vbool true)).2.2.1
      "Invalid primitive. Expected number, but got boolean" rfl rfl,
   (C8_and_semantics (number ()) (number ()) (.vnum 7)).1 rfl rfl⟩

/-- C5: array and tuple validate elements in ascending index order; on
the first element whose child validation fails they fail with exactly
the child message, verbatim, with no index context added, and on
success the payload is the original sequence unchanged. -/
theorem C5_array_tuple_propagate_verbatim :
    (∀ (s : Schema) (pre rest : List Value) (v : Value) (msg : String),
      (∀ x ∈ pre, (s.validate x).succeeded = true) →
      s.validate v = ValidationResult.failure msg →
      (array s).validate (.varr (pre ++ v :: rest)) = ValidationResult.failure msg)
    ∧ (∀ (s : Schema) (elems : List Value),
      (∀ x ∈ elems, (s.validate x).succeeded = true) →
      (array s).validate (.varr elems) = ValidationResult.success (.varr elems))
    ∧ (∀ (spre srest : List Schema) (s : Schema) (epre erest : List Value) (v : Value)
        (msg : String),
      spre.length = epre.length → srest.length = erest.length →
      (∀ p ∈ spre.zip epre, ((p.1).validate p.2).succeeded = true) →
      s.validate v = ValidationResult.failure msg →
      (tuple (spre ++ s :: srest)).validate (.varr (epre ++ v :: erest))
        = ValidationResult.failure msg)
    ∧ (∀ (schemas : List Schema) (elems : List Value),
      schemas.length = elems.length →
      (∀ p ∈ schemas.zip elems, ((p.1).validate p.2).succeeded = true) →
      (tuple schemas).validate (.varr elems) = ValidationResult.success (.varr elems)) := by
  refine ⟨fun s pre rest v msg hpre hv => ?_, fun s elems h => ?_,
    fun spre srest s epre erest v msg h1 h2 hpre hv => ?_, fun schemas elems hlen h => ?_⟩
  · exact arrayLoop_first_failure s (.varr (pre ++ v :: rest)) v pre rest msg hpre hv
  · exact arrayLoop_all_success s (.varr elems) elems h
  · have hlen : (spre ++ s :: srest).length = (epre ++ v :: erest).length := by
      simp [List.length_append, h1, h2]
    have hzip : (spre ++ s :: srest).zip (epre ++ v :: erest)
        = spre.zip epre ++ (s, v) :: srest.zip erest := by
      rw [List.zip_append h1, List.zip_cons_cons]
    show (if ((spre ++ s :: srest).length != (epre ++ v :: erest).length) = true then _
        else tupleLoop (.varr (epre ++ v :: erest))
          ((spre ++ s :: srest).zip (epre ++ v :: erest))) = _
    rw [if_neg (by simp [hlen]), hzip]
    exact tupleLoop_first_failure (.varr (epre ++ v :: erest)) (spre.zip epre)
      (srest.zip erest) s v msg hpre hv
  · show (if (schemas.length != elems.length) = true then _
        else tupleLoop (.varr elems) (schemas.zip elems)) = _
    rw [if_neg (by simp [hlen])]
    exact tupleLoop_all_success (.varr elems) (schemas.zip elems) h

/-- C5 witness: the array of numbers fails on the sequence 1, "3" with
the bare primitive message; it accepts the sequence 1; the pair schema
of a number and a string fails on 1, 2 with the bare primitive message
of the second position; and it accepts 1, "a" unchanged. -/
theorem C5_array_tuple_propagate_verbatim_witness :
    (array (number ())).validate (.varr [.vnum 1, .vstr "3"])
      = ValidationResult.failure "Invalid primitive. Expected number, but got string"
    ∧ (array (number ())).validate (.varr [.vnum 1])
      = ValidationResult.success (.varr [.vnum 1])
    ∧ (tuple [number (), string ()]).validate (.varr [.vnum 1, .vnum 2])
      = ValidationResult.failure "Invalid primitive. Expected string, but got number"
    ∧ (tuple [number (), string ()]).validate (.varr [.vnum 1, .vstr "a"])
      = ValidationResult.success (.varr [.vnum 1, .vstr "a"]) :=
  ⟨C5_array_tuple_propagate_verbatim.1 (number ()) [.vnum 1] [] (.vstr "3")
      "Invalid primitive. Expected number, but got string"
      (by
        intro x hx
        rw [List.mem_singleton] at hx
        subst hx
        rfl)
      rfl,
   C5_array_tuple_propagate_verbatim.2.1 (number ()) [.vnum 1]
      (by
        intro x hx
        rw [List.mem_singleton] at hx
        subst hx
        rfl),
   C5_array_tuple_propagate_verbatim.2.2.1 [number ()] [] (string ()) [.vnum 1] [] (.vnum 2)
      "Invalid primitive. Expected string, but got number" rfl rfl
      (by
        intro p hp
        rw [show ([number ()].zip [Value.vnum 1]) = [(number (), Value.vnum 1)] from rfl,
          List.mem_singleton] at hp
        subst hp
        rfl)
      rfl,
   C5_array_tuple_propagate_verbatim.2.2.2 [number (), string ()] [.vnum 1, .vstr "a"] rfl
      (by
        intro p hp
        rw [show ([number (), string ()].zip [Value.vnum 1, Value.vstr "a"])
            = [(number (), Value.vnum 1), (string (), Value.vstr "a")] from rfl] at hp
        rcases List.mem_cons.mp hp with rfl | hp
        · rfl
        rw [List.mem_singleton] at hp
        subst hp
        rfl)⟩

/-- C2 counterexample: in the fields record declaring first the field
named 1 and then the field named 0, both invalid on the empty object
input, the reported failure names the field 0, not the first declared
field 1: Object.entries enumerates array-index keys in ascending
numeric order before declaration order, so declared (insertion) order
is not the validation order. -/
theorem C2_declared_order_counterexample :
    (object [("1", number ()), ("0", number ())]).validate (.vobj [])
      = ValidationResult.failure (wrapFieldMsg "0" "Invalid primitive. Expected number, but got undefined")
    ∧ (object [("1", number ()), ("0", number ())]).validate (.vobj [])
      ≠ ValidationResult.failure (wrapFieldMsg "1" "Invalid primitive. Expected number, but got undefined") := by
  refine ⟨rfl, fun h => ?_⟩
  have h2 := ValidationResult.failure.inj
    ((rfl : (object [("1", number ()), ("0", number ())]).validate (.vobj [])
        = ValidationResult.failure
            (wrapFieldMsg "0" "Invalid primitive. Expected number, but got undefined")).symm.trans h)
  exact absurd h2 (by decide)

/-- C2 amended: the declared fields are validated in the enumeration
order of Object.entries, that is array-index keys in ascending numeric
order first and the remaining keys in declaration order, and on the
first field in that order whose child validation fails the object
validation fails immediately, without consulting later fields, with
the message Got invalid type for field fieldName: childErrorMessage,
field name and child message each in single quotes; the wrapping nests
through nested object schemas. -/
theorem C2_entries_order_first_failure_wraps (fields : List (String × Schema)) (v : Value)
    (pre rest : List (String × Schema)) (k : String) (s : Schema) (msg : String)
    (h1 : typeofV v = "object") (h2 : v ≠ Value.vnull)
    (hsplit : jsEntries fields = pre ++ (k, s) :: rest)
    (hpre : ∀ e ∈ pre, ((e.2).validate (getField v e.1)).succeeded = true)
    (hfail : s.validate (getField v k) = ValidationResult.failure msg) :
    (object fields).validate v = ValidationResult.failure (wrapFieldMsg k msg) := by
  rw [object_validate_pass fields v h1 h2, hsplit]
  exact validateFields_first_failure v pre rest k s msg hpre hfail

/-- C2 witness: with fields a then b, both invalid on the empty object,
the failure names only a and wraps the primitive message of a. -/
theorem C2_entries_order_first_failure_wraps_witness :
    (object [("a", number ()), ("b", boolean ())]).validate (.vobj [])
      = ValidationResult.failure (wrapFieldMsg "a" "Invalid primitive. Expected number, but got undefined") :=
  C2_entries_order_first_failure_wraps [("a", number ()), ("b", boolean ())] (.vobj [])
    [] [("b", boolean ())] "a" (number ()) "Invalid primitive. Expected number, but got undefined"
    rfl (fun h => Value.noConfusion h) rfl
    (fun e he => absurd he (List.not_mem_nil e)) rfl

/-- C10: an array input passes the kind check of an object schema, so
validation never returns the object kind-mismatch failure there:
either it succeeds, or it fails with a field-wrapped message produced
by looking the declared field names up on the array; in particular the
object schema with no declared fields succeeds on every array input
with the array itself as payload. -/
theorem C10_object_accepts_arrays (fields : List (String × Schema)) (elems : List Value) :
    (object fields).validate (.varr elems) = validateFields (.varr elems) (jsEntries fields)
    ∧ (((object fields).validate (.varr elems)).succeeded = true
        ∨ ∃ k m, (object fields).validate (.varr elems)
            = ValidationResult.failure (wrapFieldMsg k m))
    ∧ (object []).validate (.varr elems) = ValidationResult.success (.varr elems) := by
  have hpass : (object fields).validate (.varr elems)
      = validateFields (.varr elems) (jsEntries fields) :=
    object_validate_pass fields (.varr elems) rfl (fun h => Value.noConfusion h)
  refine ⟨hpass, ?_, rfl⟩
  cases hres : validateFields (.varr elems) (jsEntries fields) with
  | success w =>
    left
    rw [hpass, hres]
    rfl
  | failure m =>
    right
    obtain ⟨k, m2, hm⟩ := validateFields_failure_wrap (.varr elems) (jsEntries fields) m hres
    refine ⟨k, m2, ?_⟩
    rw [hpass, hres, hm]

end Runval
